import Mathlib

/-!
A shallow embedding of the core of the python-twitter repository:
the URL-grammar utilities of twitter_utils.py (calc_expected_status_length,
is_url, the URL_REGEXP grammar) and parse_media_file, together with the
TwitterModel data-transfer-object machinery of models.py.
-/

namespace PyTwitter

set_option maxRecDepth 1000000

/-! ### The URL grammar of URL_REGEXP (twitter_utils.py line 142)

The pattern is
  (?i)((?:https?://|www\\.)*(?:[\w+-_]+[.])(?:TLD1\b|TLD2\b|...|IPOCTET)+(?:[:\w+\/]?[TAIL])*)
compiled with re.UNICODE.  We embed it as a small regular-expression
datatype together with a backtracking matcher that returns candidate
continuations in exactly Python's preference order (alternation tried
left to right, quantifiers greedy).  Word characters are modelled by the
ASCII word class; case folding is ASCII case folding. -/

/-- The TLDS registry copied verbatim from twitter_utils.py lines 13-140. -/
def TLDS : List String :=
  [
    "ac", "ad", "ae", "af", "ag", "ai", "al", "am", "an", "ao", "aq", "ar",
    "as", "at", "au", "aw", "ax", "az", "ba", "bb", "bd", "be", "bf", "bg",
    "bh", "bi", "bj", "bl", "bm", "bn", "bo", "bq", "br", "bs", "bt", "bv",
    "bw", "by", "bz", "ca", "cc", "cd", "cf", "cg", "ch", "ci", "ck", "cl",
    "cm", "cn", "co", "cr", "cu", "cv", "cw", "cx", "cy", "cz", "de", "dj",
    "dk", "dm", "do", "dz", "ec", "ee", "eg", "eh", "er", "es", "et", "eu",
    "fi", "fj", "fk", "fm", "fo", "fr", "ga", "gb", "gd", "ge", "gf", "gg",
    "gh", "gi", "gl", "gm", "gn", "gp", "gq", "gr", "gs", "gt", "gu", "gw",
    "gy", "hk", "hm", "hn", "hr", "ht", "hu", "id", "ie", "il", "im", "in",
    "io", "iq", "ir", "is", "it", "je", "jm", "jo", "jp", "ke", "kg", "kh",
    "ki", "km", "kn", "kp", "kr", "kw", "ky", "kz", "la", "lb", "lc", "li",
    "lk", "lr", "ls", "lt", "lu", "lv", "ly", "ma", "mc", "md", "me", "mf",
    "mg", "mh", "mk", "ml", "mm", "mn", "mo", "mp", "mq", "mr", "ms", "mt",
    "mu", "mv", "mw", "mx", "my", "mz", "na", "nc", "ne", "nf", "ng", "ni",
    "nl", "no", "np", "nr", "nu", "nz", "om", "pa", "pe", "pf", "pg", "ph",
    "pk", "pl", "pm", "pn", "pr", "ps", "pt", "pw", "py", "qa", "re", "ro",
    "rs", "ru", "rw", "sa", "sb", "sc", "sd", "se", "sg", "sh", "si", "sj",
    "sk", "sl", "sm", "sn", "so", "sr", "ss", "st", "su", "sv", "sx", "sy",
    "sz", "tc", "td", "tf", "tg", "th", "tj", "tk", "tl", "tm", "tn", "to",
    "tp", "tr", "tt", "tv", "tw", "tz", "ua", "ug", "uk", "um", "us", "uy",
    "uz", "va", "vc", "ve", "vg", "vi", "vn", "vu", "wf", "ws", "ye", "yt",
    "za", "zm", "zw", "ελ", "бел", "мкд", "мон", "рф", "срб", "укр", "қаз",
    "հայ", "الاردن", "الجزائر", "السعودية", "المغرب", "امارات", "ایران", "بھارت",
    "تونس", "سودان", "سورية", "عراق", "عمان", "فلسطين", "قطر", "مصر",
    "مليسيا", "پاکستان", "भारत", "বাংলা", "ভারত", "ਭਾਰਤ", "ભારત",
    "இந்தியா", "இலங்கை", "சிங்கப்பூர்", "భారత్", "ලංකා", "ไทย",
    "გე", "中国", "中國", "台湾", "台灣", "新加坡", "澳門", "香港", "한국", "neric:",
    "abb", "abbott", "abogado", "academy", "accenture", "accountant",
    "accountants", "aco", "active", "actor", "ads", "adult", "aeg", "aero",
    "afl", "agency", "aig", "airforce", "airtel", "allfinanz", "alsace",
    "amsterdam", "android", "apartments", "app", "aquarelle", "archi", "army",
    "arpa", "asia", "associates", "attorney", "auction", "audio", "auto",
    "autos", "axa", "azure", "band", "bank", "bar", "barcelona", "barclaycard",
    "barclays", "bargains", "bauhaus", "bayern", "bbc", "bbva", "bcn", "beer",
    "bentley", "berlin", "best", "bet", "bharti", "bible", "bid", "bike",
    "bing", "bingo", "bio", "biz", "black", "blackfriday", "bloomberg", "blue",
    "bmw", "bnl", "bnpparibas", "boats", "bond", "boo", "boots", "boutique",
    "bradesco", "bridgestone", "broker", "brother", "brussels", "budapest",
    "build", "builders", "business", "buzz", "bzh", "cab", "cafe", "cal",
    "camera", "camp", "cancerresearch", "canon", "capetown", "capital",
    "caravan", "cards", "care", "career", "careers", "cars", "cartier",
    "casa", "cash", "casino", "cat", "catering", "cba", "cbn", "ceb", "center",
    "ceo", "cern", "cfa", "cfd", "chanel", "channel", "chat", "cheap",
    "chloe", "christmas", "chrome", "church", "cisco", "citic", "city",
    "claims", "cleaning", "click", "clinic", "clothing", "cloud", "club",
    "coach", "codes", "coffee", "college", "cologne", "com", "commbank",
    "community", "company", "computer", "condos", "construction", "consulting",
    "contractors", "cooking", "cool", "coop", "corsica", "country", "coupons",
    "courses", "credit", "creditcard", "cricket", "crown", "crs", "cruises",
    "cuisinella", "cymru", "cyou", "dabur", "dad", "dance", "date", "dating",
    "datsun", "day", "dclk", "deals", "degree", "delivery", "delta",
    "democrat", "dental", "dentist", "desi", "design", "dev", "diamonds",
    "diet", "digital", "direct", "directory", "discount", "dnp", "docs",
    "dog", "doha", "domains", "doosan", "download", "drive", "durban", "dvag",
    "earth", "eat", "edu", "education", "email", "emerck", "energy",
    "engineer", "engineering", "enterprises", "epson", "equipment", "erni",
    "esq", "estate", "eurovision", "eus", "events", "everbank", "exchange",
    "expert", "exposed", "express", "fage", "fail", "faith", "family", "fan",
    "fans", "farm", "fashion", "feedback", "film", "finance", "financial",
    "firmdale", "fish", "fishing", "fit", "fitness", "flights", "florist",
    "flowers", "flsmidth", "fly", "foo", "football", "forex", "forsale",
    "forum", "foundation", "frl", "frogans", "fund", "furniture", "futbol",
    "fyi", "gal", "gallery", "game", "garden", "gbiz", "gdn", "gent",
    "genting", "ggee", "gift", "gifts", "gives", "giving", "glass", "gle",
    "global", "globo", "gmail", "gmo", "gmx", "gold", "goldpoint", "golf",
    "goo", "goog", "google", "gop", "gov", "graphics", "gratis", "green",
    "gripe", "group", "guge", "guide", "guitars", "guru", "hamburg", "hangout",
    "haus", "healthcare", "help", "here", "hermes", "hiphop", "hitachi", "hiv",
    "hockey", "holdings", "holiday", "homedepot", "homes", "honda", "horse",
    "host", "hosting", "hoteles", "hotmail", "house", "how", "hsbc", "ibm",
    "icbc", "ice", "icu", "ifm", "iinet", "immo", "immobilien", "industries",
    "infiniti", "info", "ing", "ink", "institute", "insure", "int",
    "international", "investments", "ipiranga", "irish", "ist", "istanbul",
    "itau", "iwc", "java", "jcb", "jetzt", "jewelry", "jlc", "jll", "jobs",
    "joburg", "jprs", "juegos", "kaufen", "kddi", "kim", "kitchen", "kiwi",
    "koeln", "komatsu", "krd", "kred", "kyoto", "lacaixa", "lancaster", "land",
    "lasalle", "lat", "latrobe", "law", "lawyer", "lds", "lease", "leclerc",
    "legal", "lexus", "lgbt", "liaison", "lidl", "life", "lighting", "limited",
    "limo", "link", "live", "lixil", "loan", "loans", "lol", "london", "lotte",
    "lotto", "love", "ltda", "lupin", "luxe", "luxury", "madrid", "maif",
    "maison", "man", "management", "mango", "market", "marketing", "markets",
    "marriott", "mba", "media", "meet", "melbourne", "meme", "memorial", "men",
    "menu", "miami", "microsoft", "mil", "mini", "mma", "mobi", "moda", "moe",
    "mom", "monash", "money", "montblanc", "mormon", "mortgage", "moscow",
    "motorcycles", "mov", "movie", "movistar", "mtn", "mtpc", "museum",
    "nadex", "nagoya", "name", "navy", "nec", "net", "netbank", "network",
    "neustar", "new", "news", "nexus", "ngo", "nhk", "nico", "ninja", "nissan",
    "nokia", "nra", "nrw", "ntt", "nyc", "office", "okinawa", "omega", "one",
    "ong", "onl", "online", "ooo", "oracle", "orange", "org", "organic",
    "osaka", "otsuka", "ovh", "page", "panerai", "paris", "partners", "parts",
    "party", "pet", "pharmacy", "philips", "photo", "photography", "photos",
    "physio", "piaget", "pics", "pictet", "pictures", "pink", "pizza", "place",
    "play", "plumbing", "plus", "pohl", "poker", "porn", "post", "praxi",
    "press", "pro", "prod", "productions", "prof", "properties", "property",
    "pub", "qpon", "quebec", "racing", "realtor", "realty", "recipes", "red",
    "redstone", "rehab", "reise", "reisen", "reit", "ren", "rent", "rentals",
    "repair", "report", "republican", "rest", "restaurant", "review",
    "reviews", "rich", "ricoh", "rio", "rip", "rocks", "rodeo", "rsvp", "ruhr",
    "run", "ryukyu", "saarland", "sakura", "sale", "samsung", "sandvik",
    "sandvikcoromant", "sanofi", "sap", "sarl", "saxo", "sca", "scb",
    "schmidt", "scholarships", "school", "schule", "schwarz", "science",
    "scor", "scot", "seat", "seek", "sener", "services", "sew", "sex", "sexy",
    "shiksha", "shoes", "show", "shriram", "singles", "site", "ski", "sky",
    "skype", "sncf", "soccer", "social", "software", "sohu", "solar",
    "solutions", "sony", "soy", "space", "spiegel", "spreadbetting", "srl",
    "starhub", "statoil", "studio", "study", "style", "sucks", "supplies",
    "supply", "support", "surf", "surgery", "suzuki", "swatch", "swiss",
    "sydney", "systems", "taipei", "tatamotors", "tatar", "tattoo", "tax",
    "taxi", "team", "tech", "technology", "tel", "telefonica", "temasek",
    "tennis", "thd", "theater", "tickets", "tienda", "tips", "tires", "tirol",
    "today", "tokyo", "tools", "top", "toray", "toshiba", "tours", "town",
    "toyota", "toys", "trade", "trading", "training", "travel", "trust", "tui",
    "ubs", "university", "uno", "uol", "vacations", "vegas", "ventures",
    "vermögensberater", "vermögensberatung", "versicherung", "vet", "viajes",
    "video", "villas", "vin", "vision", "vista", "vistaprint", "vlaanderen",
    "vodka", "vote", "voting", "voto", "voyage", "wales", "walter", "wang",
    "watch", "webcam", "website", "wed", "wedding", "weir", "whoswho", "wien",
    "wiki", "williamhill", "win", "windows", "wine", "wme", "work", "works",
    "world", "wtc", "wtf", "xbox", "xerox", "xin", "xperia", "xxx", "xyz",
    "yachts", "yandex", "yodobashi", "yoga", "yokohama", "youtube", "zip",
    "zone", "zuerich", "дети", "ком", "москва", "онлайн", "орг", "рус", "сайт",
    "קום", "بازار", "شبكة", "كوم", "موقع", "कॉम", "नेट", "संगठन", "คอม",
    "みんな", "グーグル", "コム", "世界", "中信", "中文网", "企业", "佛山", "信息",
    "健康", "八卦", "公司", "公益", "商城", "商店", "商标", "在线", "大拿", "娱乐",
    "工行", "广东", "慈善", "我爱你", "手机", "政务", "政府", "新闻", "时尚", "机构",
    "淡马锡", "游戏", "点看", "移动", "组织机构", "网址", "网店", "网络", "谷歌", "集团",
    "飞利浦", "餐厅", "닷넷", "닷컴", "삼성", "onion"]

/-- Python ASCII word character: the `\w` class restricted to ASCII. -/
def isWordChar (c : Char) : Bool := c.isAlphanum || c == '_'

/-- ASCII-case-insensitive character comparison, modelling the (?i) flag. -/
def ciEq (a b : Char) : Bool := a.toLower == b.toLower

/-- Regular-expression shapes sufficient for URL_REGEXP: the empty word,
a character class, an ordered alternation of literal strings, sequencing,
ordered alternation, greedy Kleene star and the word boundary assertion. -/
inductive Re where
  | eps
  | cls (p : Char → Bool)
  | lits (ss : List (List Char))
  | cat (a b : Re)
  | alt (a b : Re)
  | star (a : Re)
  | wb

/-- Strip a literal (case-insensitively) from the input, threading the
previously consumed character (needed by the word-boundary assertion). -/
def stripCI : List Char → Option Char → List Char → Option (Option Char × List Char)
  | [], p, s => some (p, s)
  | _ :: _, _, [] => none
  | l :: ls, _, c :: cs => if ciEq c l then stripCI ls (some c) cs else none

/-- Try a function on each list element in order and return the first
success; later elements are not examined once one succeeds. -/
def firstSome : List α → (α → Option β) → Option β
  | [], _ => none
  | a :: as, f =>
    match f a with
    | some b => some b
    | none => firstSome as f

/-- A match state: the last consumed character (for the word-boundary
assertion) and the remaining input. -/
abbrev MState := Option Char × List Char

/-- Backtracking matcher in continuation-passing style, mirroring the
behaviour of Python's engine: `mtchK fuel re prev s k` matches `re`
against `s`, calling the continuation `k` on each candidate ending in
Python's preference order (alternations tried left to right, quantifiers
greedy, a quantifier whose body matched without consuming input stops
iterating) until `k` first succeeds.  `fuel` dominates the recursion
depth; `mfuel` below always provides enough. -/
def mtchK : Nat → Re → Option Char → List Char → (Option Char → List Char → Option MState) → Option MState
  | 0, _, _, _, _ => none
  | Nat.succ n, re, p, s, k =>
    match re with
    | .eps => k p s
    | .cls f =>
      match s with
      | [] => none
      | c :: cs => if f c then k (some c) cs else none
    | .lits ss =>
      firstSome ss (fun l =>
        match stripCI l p s with
        | some pr => k pr.1 pr.2
        | none => none)
    | .cat a b => mtchK n a p s (fun p1 s1 => mtchK n b p1 s1 k)
    | .alt a b =>
      match mtchK n a p s k with
      | some r => some r
      | none => mtchK n b p s k
    | .wb =>
      let bw := match p with | some c => isWordChar c | none => false
      let aw := match s with | c :: _ => isWordChar c | [] => false
      if bw != aw then k p s else none
    | .star a =>
      match mtchK n a p s (fun p1 s1 =>
              if s1.length < s.length then mtchK n (.star a) p1 s1 k else k p1 s1) with
      | some r => some r
      | none => k p s

/-- Greedy `+`, as `a a*`. -/
def Re.plus (a : Re) : Re := .cat a (.star a)

/-- The class `[\w+-_]`: word characters together with the literal range
from code point 43 to 95 (the `+-_` range as Python parses it). -/
def domClass (c : Char) : Bool := isWordChar c || (43 ≤ c.toNat && c.toNat ≤ 95)

/-- The scheme alternative `(?:https?://|www\\.)`: the raw-string source
contains a double backslash, so the second branch is the literal `www\`
followed by any character other than a newline. -/
def schemeRe : Re :=
  .alt (.lits ["https://".toList, "http://".toList])
       (.cat (.lits ["www\\".toList]) (.cls (fun c => c != '\n')))

/-- The trailing IPv4-octet alternative
`(?:[0-9]|[1-9][0-9]|1[0-9][0-9]|2[0-4][0-9]|25[0-5])`. -/
def ipRe : Re :=
  .alt (.cls Char.isDigit)
  (.alt (.cat (.cls (fun c => decide ('1' ≤ c) && decide (c ≤ '9'))) (.cls Char.isDigit))
  (.alt (.cat (.cls (fun c => c == '1')) (.cat (.cls Char.isDigit) (.cls Char.isDigit)))
  (.alt (.cat (.cls (fun c => c == '2'))
              (.cat (.cls (fun c => decide ('0' ≤ c) && decide (c ≤ '4'))) (.cls Char.isDigit)))
        (.cat (.cls (fun c => c == '2'))
              (.cat (.cls (fun c => c == '5')) (.cls (fun c => decide ('0' ≤ c) && decide (c ≤ '5'))))))))

/-- One unit of the TLD alternation: some registry label followed by a
word boundary, or else an IPv4 octet (tried last, as in the source). -/
def tldRe : Re := .alt (.cat (.lits (TLDS.map String.toList)) .wb) ipRe

/-- The first class `[:\w+\/]` of the path tail. -/
def tailClass1 (c : Char) : Bool := c == ':' || isWordChar c || c == '+' || c == '/'

/-- The second class of the path tail, under (?i):
letters, digits and the listed punctuation (including the apostrophe). -/
def tailClass2 (c : Char) : Bool :=
  (decide ('a' ≤ c.toLower) && decide (c.toLower ≤ 'z')) || c.isDigit ||
  ("!*();:&=+$/%#[]-_.,~?".toList ++ [Char.ofNat 39]).contains c

/-- One unit `(?:[:\w+\/]?[...])` of the path tail. -/
def tailRe : Re := .cat (.alt (.cls tailClass1) .eps) (.cls tailClass2)

/-- The whole of URL_REGEXP (its single capturing group):
`(?:scheme)* [\w+-_]+ [.] (?:tld)+ (?:tail)*`. -/
def urlRe : Re :=
  .cat (.star schemeRe)
    (.cat (Re.plus (.cls domClass))
      (.cat (.cls (fun c => c == '.'))
        (.cat (Re.plus tldRe) (.star tailRe))))

/-- Fuel that dominates the matcher's recursion depth on input `s`. -/
def mfuel (s : List Char) : Nat := 64 * (s.length + 4)

/-- Length of the preferred match of URL_REGEXP anchored at the current
position, if any. -/
def firstMatchLen (p : Option Char) (s : List Char) : Option Nat :=
  match mtchK (mfuel s) urlRe p s (fun p1 s1 => some (p1, s1)) with
  | none => none
  | some pr => some (s.length - pr.2.length)

/-- The scanner behind re.findall: try the pattern at each position from
left to right; on a match, emit it and continue after its end (an empty
match advances by one character). -/
def scanAux : Nat → Option Char → List Char → List (List Char)
  | 0, _, _ => []
  | Nat.succ n, p, s =>
    match firstMatchLen p s with
    | some k =>
      if k == 0 then
        [] :: (match s with
               | [] => []
               | c :: cs => scanAux n (some c) cs)
      else
        s.take k :: scanAux n (s.take k).getLast? (s.drop k)
    | none =>
      match s with
      | [] => []
      | c :: cs => scanAux n (some c) cs

/-- re.findall(URL_REGEXP, text): the list of non-overlapping matches of
the single capturing group, scanning left to right. -/
def re_findall (text : String) : List String :=
  (scanAux (text.toList.length + 1) none text.toList).map (fun l => String.mk l)

/-- twitter_utils.calc_expected_status_length (lines 145-152). -/
def calc_expected_status_length (status : String) (short_url_length : Int := 23) : Int :=
  let ms := re_findall status
  let replaced_chars : Nat := (ms.map String.length).sum
  (status.length : Int) - (replaced_chars : Int) + short_url_length * (ms.length : Int)

/-- twitter_utils.is_url (lines 155-159). -/
def is_url (text : String) : Bool :=
  if (re_findall text).isEmpty then false else true

/-! ### parse_media_file (twitter_utils.py lines 162-206) -/

/-- twitter.TwitterError, modelled by the message of the dict payload it
is raised with. -/
structure TwitterError where
  message : String
deriving DecidableEq, Repr

/-- A Python file-like object as parse_media_file observes it: total byte
length, current offset, and whether the handle has been closed. -/
structure PyStream where
  size : Nat
  pos : Nat
  closed : Bool
deriving DecidableEq, Repr

/-- The argument of parse_media_file.  A string reference (local path or
http(s) URL) carries the byte length the environment reports for it: for
a local file the offset `seek(0, 2); tell()` yields, for a URL the
transfer length of the opened connection.  An object with a read method
carries its name and its byte length. -/
inductive PassedMedia where
  | str (ref : String) (byteLength : Nat)
  | fileObj (name : String) (byteLength : Nat)
deriving DecidableEq, Repr

/-- The suffix of a character list after its last occurrence of `sep`
(the whole list when `sep` does not occur). -/
def afterLast (sep : Char) (cs : List Char) : List Char :=
  (cs.reverse.takeWhile (fun c => c != sep)).reverse

/-- os.path.basename: the final path segment, after the last slash. -/
def basename (p : String) : String := String.mk (afterLast '/' p.toList)

/-- The file extension as mimetypes sees it: what follows the last dot
of the basename (empty when the basename has no dot; the splitext
special case for names that begin with their only dot is not
exercised here). -/
def extOf (name : String) : String :=
  let bs := afterLast '/' name.toList
  if bs.contains '.' then String.mk (afterLast '.' bs) else ""

/-- ASCII lowercasing, character by character. -/
def lowerStr (s : String) : String := String.mk (s.toList.map Char.toLower)

/-- mimetypes.guess_type, modelled from the stdlib extension table on the
entries relevant here (the extension is matched case-insensitively);
unknown or missing extensions give none. -/
def guess_type (name : String) : Option String :=
  match lowerStr (extOf name) with
  | "jpg" => some "image/jpeg"
  | "jpeg" => some "image/jpeg"
  | "jpe" => some "image/jpeg"
  | "png" => some "image/png"
  | "gif" => some "image/gif"
  | "bmp" => some "image/bmp"
  | "webp" => some "image/webp"
  | "mp4" => some "video/mp4"
  | "txt" => some "text/plain"
  | "mp3" => some "audio/mpeg"
  | "pdf" => some "application/pdf"
  | "html" => some "text/html"
  | _ => none

/-- img_formats (twitter_utils.py lines 163-167). -/
def img_formats : List String :=
  ["image/jpeg", "image/png", "image/gif", "image/bmp", "image/webp"]

/-- video_formats (line 168). -/
def video_formats : List String := ["video/mp4"]

/-- `media_type in img_formats` on the optional guess. -/
def isImgType (mt : Option String) : Bool :=
  match mt with
  | some t => img_formats.contains t
  | none => false

/-- `media_type in video_formats` on the optional guess. -/
def isVideoType (mt : Option String) : Bool :=
  match mt with
  | some t => video_formats.contains t
  | none => false

/-- The straight-line classification and validation tail of
twitter_utils.parse_media_file (lines 198-206). -/
def validateMedia (data_file : PyStream) (filename : String) (file_size : Nat) :
    Except TwitterError (PyStream × String × Nat × Option String) :=
  if isImgType (guess_type (basename filename)) && file_size > 5 * 1048576 then
    .error ⟨"Images must be less than 5MB."⟩
  else if isVideoType (guess_type (basename filename)) && file_size > 15 * 1048576 then
    .error ⟨"Videos must be less than 15MB."⟩
  else if !isImgType (guess_type (basename filename)) &&
      !isVideoType (guess_type (basename filename)) then
    .error ⟨"Media type could not be determined."⟩
  else
    .ok (data_file, filename, file_size, guess_type (basename filename))

/-- twitter_utils.parse_media_file (lines 162-206).

For a string that does not start with "http" the source opens the local
file inside a `with` block (line 179), so the handle is closed when the
block exits; the later `data_file.seek(0)` (line 194) then raises on the
closed handle and the bare `except: pass` swallows the error, leaving the
returned stream closed and still positioned at its end.  For a URL the
connection stream rejects the seek (also swallowed) but has not been read,
so it remains at offset 0.  A passed-in file object is seekable, so its
`seek(0)` succeeds. -/
def parse_media_file (passed_media : PassedMedia) :
    Except TwitterError (PyStream × String × Nat × Option String) :=
  match passed_media with
  | .str ref len =>
    if "http".toList.isPrefixOf ref.toList then
      validateMedia ⟨len, 0, false⟩ (basename ref) len
    else
      validateMedia ⟨len, len, true⟩ (basename ref) len
  | .fileObj name len =>
    validateMedia ⟨len, 0, false⟩ name len

/-! ### models.py: the TwitterModel base class -/

/-- Python values as the model layer manipulates them: None, booleans,
integers, strings, lists, plain dicts, and model instances (an instance
is its attribute mapping, in param_defaults order). -/
inductive PyValue where
  | pnone
  | pbool (b : Bool)
  | pint (n : Int)
  | pstr (s : String)
  | plist (xs : List PyValue)
  | pdict (fields : List (String × PyValue))
  | pmodel (attrs : List (String × PyValue))

mutual

/-- Python `==` on the embedded values (and its elementwise extensions to
lists and to dict field lists); dict comparison is field-list comparison,
which agrees with Python's order-insensitive dict equality whenever the
two sides draw their keys in a shared declaration order, as all
param_defaults tables do. -/
def pyBeq : PyValue → PyValue → Bool
  | .pnone, .pnone => true
  | .pbool x, .pbool y => x == y
  | .pint x, .pint y => x == y
  | .pstr x, .pstr y => x == y
  | .plist xs, .plist ys => pyListBeq xs ys
  | .pdict xs, .pdict ys => pyFieldsBeq xs ys
  | .pmodel xs, .pmodel ys => pyFieldsBeq xs ys
  | _, _ => false

def pyListBeq : List PyValue → List PyValue → Bool
  | [], [] => true
  | x :: xs, y :: ys => pyBeq x y && pyListBeq xs ys
  | _, _ => false

def pyFieldsBeq : List (String × PyValue) → List (String × PyValue) → Bool
  | [], [] => true
  | (k, v) :: xs, (l, w) :: ys => k == l && pyBeq v w && pyFieldsBeq xs ys
  | _, _ => false

end

/-- Python truthiness of the embedded values; model instances define
neither __bool__ nor __len__, hence are always truthy. -/
def truthy : PyValue → Bool
  | .pnone => false
  | .pbool b => b
  | .pint n => n != 0
  | .pstr s => s != ""
  | .plist xs => !xs.isEmpty
  | .pdict fs => !fs.isEmpty
  | .pmodel _ => true

/-- TwitterModel.AsDict (models.py lines 31-38): walk param_defaults in
order; an attribute that is itself a model is serialized recursively
(whether or not the result is empty), any other attribute is kept only
when truthy. -/
def asDictFields : List (String × PyValue) → List (String × PyValue)
  | [] => []
  | (k, .pmodel a) :: rest => (k, .pdict (asDictFields a)) :: asDictFields rest
  | (k, v) :: rest => if truthy v then (k, v) :: asDictFields rest else asDictFields rest
termination_by l => sizeOf l

/-- self.AsDict() on a value (models never hold non-model values with an
AsDict attribute, so only the pmodel case serializes). -/
def asDictV : PyValue → PyValue
  | .pmodel a => .pdict (asDictFields a)
  | v => v

/-- A model class is its param_defaults table, in source order. -/
structure ModelClass where
  param_defaults : List (String × PyValue)

/-- kwargs.get(param, default). -/
def kwget (kwargs : List (String × PyValue)) (k : String) (d : PyValue) : PyValue :=
  match kwargs.lookup k with
  | some v => v
  | none => d

/-- The generic TwitterModel construction (NewFromJsonDict, lines 40-55,
merging into the keyword initializer each subclass defines): for every
declared param take the mapping's value when the key is present and the
default otherwise; unknown keys are ignored. -/
def newFromJsonDict (cls : ModelClass) (data : List (String × PyValue)) : PyValue :=
  .pmodel (cls.param_defaults.map (fun kd => (kd.1, kwget data kd.1 kd.2)))

/-- The attribute mapping of a model instance. -/
def modelAttrs : PyValue → List (String × PyValue)
  | .pmodel a => a
  | _ => []

/-- TwitterModel.__eq__ (lines 22-23): `other and self.AsDict() == other.AsDict()`.
A falsy `other` short-circuits the `and` and is returned unchanged. -/
def model_eq (self other : PyValue) : PyValue :=
  if truthy other then .pbool (pyBeq (asDictV self) (asDictV other)) else other

/-- TwitterModel.__ne__ (lines 25-26): `not self.__eq__(other)`; Python's
`not` yields the boolean negation of the operand's truthiness. -/
def model_ne (self other : PyValue) : Bool := !truthy (model_eq self other)

/-- Insert a keyed entry into a key-sorted list. -/
def insertByKey (kv : String × α) : List (String × α) → List (String × α)
  | [] => [kv]
  | x :: xs => if kv.1 ≤ x.1 then kv :: x :: xs else x :: insertByKey kv xs

/-- Sort keyed entries by key, as json.dumps(..., sort_keys=True) orders
dict entries (lexicographic by code point). -/
def sortByKey : List (String × α) → List (String × α)
  | [] => []
  | x :: xs => insertByKey x (sortByKey xs)

/-- JSON string rendering with the escapes the model fields need. -/
def jsonStr (s : String) : String :=
  "\"" ++ String.join (s.toList.map (fun c =>
    if c = '"' then "\\\"" else if c = '\\' then "\\\\" else String.mk [c])) ++ "\""

/-- json.dumps with sort_keys=True.  Each dict entry is rendered on its
own and the rendered entries are then ordered by key, which produces the
same text as sorting before rendering.  A bare model object is not
JSON-serializable in Python; AsDict output never contains one. -/
def dumps : PyValue → String
  | .pnone => "null"
  | .pbool b => if b then "true" else "false"
  | .pint i => toString i
  | .pstr s => jsonStr s
  | .plist xs =>
    "[" ++ String.intercalate ", " (xs.attach.map (fun x => dumps x.1)) ++ "]"
  | .pdict fs =>
    "\x7b" ++ String.intercalate ", "
      ((sortByKey (fs.attach.map (fun kv => (kv.1.1, jsonStr kv.1.1 ++ ": " ++ dumps kv.1.2)))).map
        (fun p => p.2)) ++ "\x7d"
  | .pmodel _ => ""
termination_by v => sizeOf v
decreasing_by
  · have h := List.sizeOf_lt_of_mem x.2
    simp only [PyValue.plist.sizeOf_spec]
    omega
  · obtain ⟨⟨a, b⟩, hm⟩ := kv
    have h := List.sizeOf_lt_of_mem hm
    simp only [PyValue.pdict.sizeOf_spec, Prod.mk.sizeOf_spec] at *
    omega

/-- TwitterModel.AsJsonString (lines 28-29): json.dumps(self.AsDict(),
sort_keys=True). -/
def AsJsonString (attrs : List (String × PyValue)) : String :=
  dumps (.pdict (asDictFields attrs))

/-- Media.param_defaults (models.py lines 63-71). -/
def MediaClass : ModelClass :=
  ⟨[("id", .pnone), ("expanded_url", .pnone), ("display_url", .pnone), ("url", .pnone),
    ("media_url_https", .pnone), ("media_url", .pnone), ("type", .pnone)]⟩

/-- Hashtag.param_defaults (lines 195-197). -/
def HashtagClass : ModelClass := ⟨[("text", .pnone)]⟩

/-- UserStatus.param_defaults (lines 239-250). -/
def UserStatusClass : ModelClass :=
  ⟨[("blocking", .pbool false), ("followed_by", .pbool false), ("following", .pbool false),
    ("following_received", .pbool false), ("following_requested", .pbool false),
    ("id", .pnone), ("id_str", .pnone), ("muting", .pbool false),
    ("name", .pnone), ("screen_name", .pnone)]⟩

/-- The filename parse_media_file derives for an input. -/
def mediaFilename : PassedMedia → String
  | .str ref _ => basename ref
  | .fileObj name _ => name

/-- The byte length parse_media_file derives for an input. -/
def mediaSize : PassedMedia → Nat
  | .str _ n => n
  | .fileObj _ n => n

/-- Whether a value is a model instance (carries an AsDict method). -/
def isModelV : PyValue → Bool
  | .pmodel _ => true
  | _ => false

/-! ### Theorems -/

theorem pyBeq_iff_aux : ∀ (n : Nat),
    (∀ (a b : PyValue), sizeOf a ≤ n → (pyBeq a b = true ↔ a = b)) ∧
    (∀ (xs ys : List PyValue), sizeOf xs ≤ n → (pyListBeq xs ys = true ↔ xs = ys)) ∧
    (∀ (fs gs : List (String × PyValue)), sizeOf fs ≤ n → (pyFieldsBeq fs gs = true ↔ fs = gs)) := by
  intro n
  induction n with
  | zero =>
    refine ⟨?_, ?_, ?_⟩ <;> intro x y h <;> exfalso <;> cases x <;> simp_arith at h
  | succ n ih =>
    obtain ⟨ihV, ihL, ihF⟩ := ih
    refine ⟨?_, ?_, ?_⟩
    · intro a b ha
      cases a <;> cases b <;> simp_all [pyBeq]
      case plist.plist xs ys =>
        exact ihL xs ys (by simp_arith [PyValue.plist.sizeOf_spec] at ha; omega)
      case pdict.pdict xs ys =>
        exact ihF xs ys (by simp_arith [PyValue.pdict.sizeOf_spec] at ha; omega)
      case pmodel.pmodel xs ys =>
        exact ihF xs ys (by simp_arith [PyValue.pmodel.sizeOf_spec] at ha; omega)
    · intro xs ys h
      cases xs <;> cases ys <;> simp_all [pyListBeq]
      case cons.cons x xs y ys =>
        have h1 : sizeOf x ≤ n := by simp_arith at h; omega
        have h2 : sizeOf xs ≤ n := by simp_arith at h; omega
        rw [ihV x y h1, ihL xs ys h2]
    · intro fs gs h
      cases fs <;> cases gs <;> simp_all [pyFieldsBeq]
      case cons.cons kv fs lw gs =>
        obtain ⟨k, v⟩ := kv
        obtain ⟨l, w⟩ := lw
        have h1 : sizeOf v ≤ n := by simp_arith at h; omega
        have h2 : sizeOf fs ≤ n := by simp_arith at h; omega
        simp [pyFieldsBeq, ihV v w h1, ihF fs gs h2, and_assoc]

theorem pyBeq_iff (a b : PyValue) : pyBeq a b = true ↔ a = b :=
  (pyBeq_iff_aux (sizeOf a)).1 a b le_rfl

theorem pyFieldsBeq_iff (fs gs : List (String × PyValue)) :
    pyFieldsBeq fs gs = true ↔ fs = gs :=
  (pyBeq_iff_aux (sizeOf fs)).2.2 fs gs le_rfl

theorem insertByKey_head (kv : String × α) (l : List (String × α)) :
    (insertByKey kv l).head? = some kv ∨ (insertByKey kv l).head? = l.head? := by
  cases l with
  | nil => left; rfl
  | cons x xs =>
    by_cases h : kv.1 ≤ x.1
    · left; simp [insertByKey, h]
    · right; simp [insertByKey, h]

theorem insertByKey_chain (kv : String × α) :
    ∀ (l : List (String × α)), List.Chain' (fun p q => p.1 ≤ q.1) l →
    List.Chain' (fun p q => p.1 ≤ q.1) (insertByKey kv l) := by
  intro l
  induction l with
  | nil => intro _; simp [insertByKey]
  | cons x xs ih =>
    intro h
    by_cases hle : kv.1 ≤ x.1
    · simp only [insertByKey, if_pos hle]
      exact List.Chain'.cons hle h
    · rw [List.chain'_cons'] at h
      simp only [insertByKey, if_neg hle]
      rw [List.chain'_cons']
      refine ⟨?_, ih h.2⟩
      intro y hy
      rcases insertByKey_head kv xs with hh | hh
      · rw [hh] at hy
        simp at hy
        subst hy
        exact le_of_not_le hle
      · rw [hh] at hy
        exact h.1 y hy

theorem sortByKey_chain (l : List (String × α)) :
    List.Chain' (fun p q => p.1 ≤ q.1) (sortByKey l) := by
  induction l with
  | nil => simp [sortByKey]
  | cons x xs ih => exact insertByKey_chain x _ ih

theorem asDictFields_congr_falsy :
    ∀ (a1 a2 : List (String × PyValue)),
      List.Forall₂ (fun kv1 kv2 : String × PyValue =>
        kv1.1 = kv2.1 ∧ (kv1.2 = kv2.2 ∨ (truthy kv1.2 = false ∧ truthy kv2.2 = false))) a1 a2 →
      asDictFields a1 = asDictFields a2 := by
  intro a1 a2 h
  induction h with
  | nil => rfl
  | @cons kv1 kv2 l1 l2 hp _ ih =>
    obtain ⟨k1, v1⟩ := kv1
    obtain ⟨k2, v2⟩ := kv2
    obtain ⟨hk, hv⟩ := hp
    simp only at hk
    subst hk
    rcases hv with heq | ⟨f1, f2⟩
    · simp only at heq
      subst heq
      cases v1 <;> simp [asDictFields, ih]
    · have nv1 : ∀ a, v1 ≠ PyValue.pmodel a := by
        intro a ha; subst ha; simp [truthy] at f1
      have nv2 : ∀ a, v2 ≠ PyValue.pmodel a := by
        intro a ha; subst ha; simp [truthy] at f2
      cases v1 <;> cases v2 <;>
        simp_all [asDictFields, ih]

theorem asDictFields_flat :
    ∀ (l : List (String × PyValue)), (∀ kv ∈ l, isModelV kv.2 = false) →
    asDictFields l = l.filter (fun kv => truthy kv.2) := by
  intro l h
  induction l with
  | nil => simp [asDictFields]
  | cons kv rest ih =>
    obtain ⟨k, v⟩ := kv
    have hv := h (k, v) (List.mem_cons_self _ _)
    have hrest : ∀ kv ∈ rest, isModelV kv.2 = false :=
      fun kv hm => h kv (List.mem_cons_of_mem _ hm)
    have ih2 := ih hrest
    cases v <;> simp_all [asDictFields, isModelV, List.filter_cons]

/-- C4 (amended): constructing a model from a mapping and converting back
with AsDict yields exactly the constructed fields whose value is truthy;
a falsy value — supplied or defaulted, default-equal or not — is omitted.
In particular every supplied truthy field reappears with its value.
(Stated for instances without nested model values; a nested model is
serialized recursively by the pmodel branch of asDictFields.) -/
theorem c4_roundtrip (cls : ModelClass) (data : List (String × PyValue))
    (h : ∀ kv ∈ modelAttrs (newFromJsonDict cls data), isModelV kv.2 = false) :
    asDictFields (modelAttrs (newFromJsonDict cls data)) =
      (modelAttrs (newFromJsonDict cls data)).filter (fun kv => truthy kv.2) ∧
    ∀ kv ∈ modelAttrs (newFromJsonDict cls data), truthy kv.2 = true →
      kv ∈ asDictFields (modelAttrs (newFromJsonDict cls data)) :=
  have h1 := asDictFields_flat _ h
  ⟨h1, fun _ hm ht => h1 ▸ List.mem_filter.mpr ⟨hm, ht⟩⟩

/-- Witness for C4: a Media built from a mapping with one truthy field. -/
theorem c4_roundtrip_witness :
    asDictFields (modelAttrs (newFromJsonDict MediaClass [("url", .pstr "u")])) =
      (modelAttrs (newFromJsonDict MediaClass [("url", .pstr "u")])).filter
        (fun kv => truthy kv.2) :=
  (c4_roundtrip MediaClass [("url", .pstr "u")]
    (by intro kv hm; fin_cases hm <;> rfl)).1

/-- C4 counterexample: Media constructed from the mapping `id = 0`
carries the supplied non-default value 0, yet AsDict is empty — the
supplied non-default field is not reproduced, because AsDict keeps only
truthy values. -/
theorem c4_counterexample :
    modelAttrs (newFromJsonDict MediaClass [("id", .pint 0)]) =
      [("id", .pint 0), ("expanded_url", .pnone), ("display_url", .pnone), ("url", .pnone),
       ("media_url_https", .pnone), ("media_url", .pnone), ("type", .pnone)] ∧
    (.pint 0 : PyValue) ≠ .pnone ∧
    asDictFields (modelAttrs (newFromJsonDict MediaClass [("id", .pint 0)])) = [] := by
  refine ⟨rfl, by simp, ?_⟩
  simp [newFromJsonDict, MediaClass, kwget, modelAttrs, asDictFields, truthy, List.lookup]

/-- C5 (amended): __eq__ on two (truthy) model instances returns True
exactly when their AsDict mappings — the truthy-valued fields — agree
(not their raw attribute mappings); __ne__ is the boolean negation of
__eq__'s truthiness; AsJsonString is json.dumps of AsDict with keys
sorted, the serializer ordering entries nondecreasingly by key. -/
theorem c5_eq_canonical (a1 a2 : List (String × PyValue)) :
    (model_eq (.pmodel a1) (.pmodel a2) = .pbool true ↔
      asDictFields a1 = asDictFields a2) ∧
    (∀ other : PyValue, model_ne (.pmodel a1) other = !truthy (model_eq (.pmodel a1) other)) ∧
    AsJsonString a1 = dumps (.pdict (asDictFields a1)) ∧
    (∀ l : List (String × String), List.Chain' (fun p q => p.1 ≤ q.1) (sortByKey l)) := by
  refine ⟨?_, fun other => rfl, rfl, fun l => sortByKey_chain l⟩
  simp only [model_eq, truthy, asDictV, pyBeq, if_true]
  constructor
  · intro h
    exact (pyFieldsBeq_iff _ _).mp (by injection h)
  · intro h
    rw [(pyFieldsBeq_iff _ _).mpr h]

/-- C5 counterexample: two UserStatus instances whose raw field-value
mappings differ (following = False versus following = None) but whose
__eq__ is True, refuting "equal iff their field-value mappings are
equal". -/
theorem c5_counterexample :
    model_eq (newFromJsonDict UserStatusClass [])
        (newFromJsonDict UserStatusClass [("following", .pnone)]) = .pbool true ∧
    modelAttrs (newFromJsonDict UserStatusClass []) ≠
      modelAttrs (newFromJsonDict UserStatusClass [("following", .pnone)]) := by
  have e1 : asDictFields (modelAttrs (newFromJsonDict UserStatusClass [])) = [] := by
    rw [asDictFields_flat _ (by intro kv hm; fin_cases hm <;> rfl)]
    rfl
  have e2 : asDictFields
      (modelAttrs (newFromJsonDict UserStatusClass [("following", .pnone)])) = [] := by
    rw [asDictFields_flat _ (by intro kv hm; fin_cases hm <;> rfl)]
    rfl
  constructor
  · have h0 : model_eq (newFromJsonDict UserStatusClass [])
        (newFromJsonDict UserStatusClass [("following", .pnone)]) =
        .pbool (pyBeq
          (.pdict (asDictFields (modelAttrs (newFromJsonDict UserStatusClass []))))
          (.pdict (asDictFields
            (modelAttrs (newFromJsonDict UserStatusClass [("following", .pnone)]))))) := rfl
    rw [h0, e1, e2]
    rfl
  · intro h
    have h3 := congrArg (fun l => List.lookup "following" l) h
    simp [newFromJsonDict, UserStatusClass, kwget, modelAttrs, List.lookup] at h3

/-- C10: comparing a model against a falsy value returns that falsy value
itself (not the boolean False), and two same-shape instances whose
fields agree except where both sides are falsy compare equal, because
AsDict omits every falsy field. -/
theorem c10_falsy :
    (∀ (self other : PyValue), truthy other = false → model_eq self other = other) ∧
    (∀ (a1 a2 : List (String × PyValue)),
      List.Forall₂ (fun kv1 kv2 : String × PyValue =>
        kv1.1 = kv2.1 ∧ (kv1.2 = kv2.2 ∨ (truthy kv1.2 = false ∧ truthy kv2.2 = false))) a1 a2 →
      model_eq (.pmodel a1) (.pmodel a2) = .pbool true) := by
  constructor
  · intro self other h
    simp [model_eq, h]
  · intro a1 a2 h
    have heq := asDictFields_congr_falsy a1 a2 h
    simp only [model_eq, truthy, asDictV, pyBeq, if_true, heq]
    rw [(pyFieldsBeq_iff _ _).mpr rfl]

/-- Witness for C10: Media() == None returns None itself, and an
instance with a False field equals one with that field None. -/
theorem c10_falsy_witness :
    model_eq (newFromJsonDict MediaClass []) .pnone = .pnone ∧
    model_eq (.pmodel [("x", .pbool false)]) (.pmodel [("x", .pnone)]) = .pbool true :=
  ⟨c10_falsy.1 _ _ rfl,
   c10_falsy.2 _ _ (List.Forall₂.cons ⟨rfl, Or.inr ⟨rfl, rfl⟩⟩ List.Forall₂.nil)⟩

theorem guess_not_both (s : String) :
    ¬(isImgType (guess_type s) = true ∧ isVideoType (guess_type s) = true) := by
  unfold guess_type
  split <;> decide

theorem validateMedia_spec (st : PyStream) (fn : String) (sz : Nat) :
    (validateMedia st fn sz = .error ⟨"Images must be less than 5MB."⟩ ↔
      isImgType (guess_type (basename fn)) = true ∧ sz > 5 * 1048576) ∧
    (validateMedia st fn sz = .error ⟨"Videos must be less than 15MB."⟩ ↔
      isVideoType (guess_type (basename fn)) = true ∧ sz > 15 * 1048576) ∧
    (validateMedia st fn sz = .error ⟨"Media type could not be determined."⟩ ↔
      (isImgType (guess_type (basename fn)) = false ∧
       isVideoType (guess_type (basename fn)) = false)) ∧
    (∀ st2 fn2 sz2 mt2, validateMedia st fn sz = .ok (st2, fn2, sz2, mt2) →
      st2 = st ∧ fn2 = fn ∧ sz2 = sz ∧ mt2 = guess_type (basename fn) ∧
      (isImgType mt2 = true ∨ isVideoType mt2 = true) ∧
      (isImgType mt2 = true → sz2 ≤ 5 * 1048576) ∧
      (isVideoType mt2 = true → sz2 ≤ 15 * 1048576)) := by
  have hdisj := guess_not_both (basename fn)
  unfold validateMedia
  split_ifs with h1 h2 h3
  · simp only [Bool.and_eq_true, decide_eq_true_eq] at h1
    refine ⟨by simp [h1], ?_, ?_, by simp⟩
    · simp only [Except.error.injEq, TwitterError.mk.injEq]
      constructor
      · intro h; exact absurd h (by decide)
      · rintro ⟨hv, _⟩; exact absurd ⟨h1.1, hv⟩ hdisj
    · simp only [Except.error.injEq, TwitterError.mk.injEq]
      constructor
      · intro h; exact absurd h (by decide)
      · rintro ⟨hi, _⟩; rw [h1.1] at hi; exact absurd hi (by decide)
  · simp only [Bool.and_eq_true, decide_eq_true_eq, not_and, not_lt] at h1
    simp only [Bool.and_eq_true, decide_eq_true_eq] at h2
    refine ⟨?_, by simp [h2], ?_, by simp⟩
    · simp only [Except.error.injEq, TwitterError.mk.injEq]
      constructor
      · intro h; exact absurd h (by decide)
      · rintro ⟨hi, _⟩; exact absurd ⟨hi, h2.1⟩ hdisj
    · simp only [Except.error.injEq, TwitterError.mk.injEq]
      constructor
      · intro h; exact absurd h (by decide)
      · rintro ⟨_, hv⟩; rw [h2.1] at hv; exact absurd hv (by decide)
  · simp only [Bool.and_eq_true, decide_eq_true_eq, not_and, not_lt] at h1
    simp only [Bool.and_eq_true, decide_eq_true_eq, not_and, not_lt] at h2
    simp only [Bool.and_eq_true, Bool.not_eq_true'] at h3
    refine ⟨?_, ?_, by simp [h3.1, h3.2], by simp⟩
    · simp only [Except.error.injEq, TwitterError.mk.injEq]
      constructor
      · intro h; exact absurd h (by decide)
      · rintro ⟨hi, _⟩; rw [hi] at h3; exact absurd h3.1 (by decide)
    · simp only [Except.error.injEq, TwitterError.mk.injEq]
      constructor
      · intro h; exact absurd h (by decide)
      · rintro ⟨hv, _⟩; rw [hv] at h3; exact absurd h3.2 (by decide)
  · simp only [Bool.and_eq_true, decide_eq_true_eq, not_and, not_lt] at h1
    simp only [Bool.and_eq_true, decide_eq_true_eq, not_and, not_lt] at h2
    simp only [Bool.and_eq_true, Bool.not_eq_true', not_and] at h3
    refine ⟨?_, ?_, ?_, ?_⟩
    · simp only [Except.ok.injEq, reduceCtorEq, false_iff, not_and, not_lt]
      intro hi; exact h1 hi
    · simp only [Except.ok.injEq, reduceCtorEq, false_iff, not_and, not_lt]
      intro hv; exact h2 hv
    · simp only [Except.ok.injEq, reduceCtorEq, false_iff, not_and]
      exact h3
    · intro st2 fn2 sz2 mt2 heq
      simp only [Except.ok.injEq, Prod.mk.injEq, and_assoc] at heq
      obtain ⟨hst, hfn, hsz, hmt⟩ := heq
      subst hst; subst hfn; subst hsz; subst hmt
      refine ⟨rfl, rfl, rfl, rfl, ?_, fun hi => h1 hi, fun hv => h2 hv⟩
      by_cases hi : isImgType (guess_type (basename fn)) = true
      · exact Or.inl hi
      · right
        have hfalse : isImgType (guess_type (basename fn)) = false := by
          cases h : isImgType (guess_type (basename fn)) with
          | true => exact absurd h hi
          | false => rfl
        have := h3 hfalse
        cases h : isVideoType (guess_type (basename fn)) with
        | true => rfl
        | false => exact absurd h this

/-- C1 (records the code's actual behaviour at the claim's scenario):
for a local 4 MiB file photo.jpg the resolver does derive the filename
from the final path segment, the size from the seek-to-end offset, and
the image category, but the stream it returns is the handle the `with`
block already closed, still positioned at the end of the file rather
than at offset 0 — the swallowed `seek(0)` never repositioned it, so the
caller cannot read from it. -/
theorem c1_local_stream_closed :
    ∃ st : PyStream,
      parse_media_file (.str "photo.jpg" (4 * 1048576)) =
        .ok (st, "photo.jpg", 4 * 1048576, some "image/jpeg") ∧
      st.closed = true ∧ st.pos = 4 * 1048576 ∧ st.pos ≠ 0 :=
  ⟨⟨4 * 1048576, 4 * 1048576, true⟩, rfl, rfl, rfl, by decide⟩

/-- C2: parse_media_file fails with exactly the three advertised
TwitterError messages — image type over 5*1048576 bytes, video type over
15*1048576 bytes, undetermined type — and in every other case returns the
full descriptor (stream, filename, size, media type), never one whose
category/size combination violates the limits. -/
theorem c2_media_validation (m : PassedMedia) :
    (parse_media_file m = .error ⟨"Images must be less than 5MB."⟩ ↔
      isImgType (guess_type (basename (mediaFilename m))) = true ∧
        mediaSize m > 5 * 1048576) ∧
    (parse_media_file m = .error ⟨"Videos must be less than 15MB."⟩ ↔
      isVideoType (guess_type (basename (mediaFilename m))) = true ∧
        mediaSize m > 15 * 1048576) ∧
    (parse_media_file m = .error ⟨"Media type could not be determined."⟩ ↔
      (isImgType (guess_type (basename (mediaFilename m))) = false ∧
       isVideoType (guess_type (basename (mediaFilename m))) = false)) ∧
    (∀ st fn sz mt, parse_media_file m = .ok (st, fn, sz, mt) →
      fn = mediaFilename m ∧ sz = mediaSize m ∧
      mt = guess_type (basename (mediaFilename m)) ∧
      (isImgType mt = true ∨ isVideoType mt = true) ∧
      (isImgType mt = true → sz ≤ 5 * 1048576) ∧
      (isVideoType mt = true → sz ≤ 15 * 1048576)) := by
  obtain ⟨st0, hst⟩ : ∃ st0, parse_media_file m =
      validateMedia st0 (mediaFilename m) (mediaSize m) := by
    rcases m with ⟨ref, len⟩ | ⟨name, len⟩
    · by_cases h : "http".toList.isPrefixOf ref.toList
      · exact ⟨⟨len, 0, false⟩, by
          simp only [parse_media_file, mediaFilename, mediaSize]
          rw [if_pos h]⟩
      · exact ⟨⟨len, len, true⟩, by
          simp only [parse_media_file, mediaFilename, mediaSize]
          rw [if_neg h]⟩
    · exact ⟨⟨len, 0, false⟩, rfl⟩
  rw [hst]
  have hs := validateMedia_spec st0 (mediaFilename m) (mediaSize m)
  exact ⟨hs.1, hs.2.1, hs.2.2.1,
    fun st fn sz mt heq => (hs.2.2.2 st fn sz mt heq).2⟩

/-- Witness for C2: a 6 MiB png fails with the image-limit message. -/
theorem c2_media_validation_witness :
    parse_media_file (.str "photo.png" (6 * 1048576)) =
      .error ⟨"Images must be less than 5MB."⟩ :=
  (c2_media_validation (.str "photo.png" (6 * 1048576))).1.mpr (by decide)

/-- C3: calc_expected_status_length returns len(status) minus the summed
lengths of the URL-grammar matches plus short_url_length per match; with
no match it returns len(status) unchanged, and the empty status gives 0. -/
theorem c3_length_formula (status : String) (k : Int) :
    (calc_expected_status_length status k =
      (status.length : Int) - (((re_findall status).map String.length).sum : Int)
        + k * ((re_findall status).length : Int)) ∧
    (re_findall status = [] → calc_expected_status_length status k = (status.length : Int)) ∧
    calc_expected_status_length "" k = 0 := by
  refine ⟨rfl, ?_, ?_⟩
  · intro h
    simp [calc_expected_status_length, h]
  · have h : re_findall "" = [] := by decide
    simp [calc_expected_status_length, h]

/-- Witness for C3 at a matchless status. -/
theorem c3_length_formula_witness :
    calc_expected_status_length "hi" 23 = (("hi".length : Nat) : Int) :=
  (c3_length_formula "hi" 23).2.1 (by decide)

/-- C6: the status consisting of the single bare URL
http://example.com/path is consumed as one match of the URL grammar, and
the estimate at short_url_length 23 is exactly 23. -/
theorem c6_single_bare_url :
    re_findall "http://example.com/path" = ["http://example.com/path"] ∧
    calc_expected_status_length "http://example.com/path" 23 = 23 := by
  exact ⟨by decide, by decide⟩

/-- C7: is_url is true exactly when the URL grammar matches somewhere in
the text; it rejects plain text without links and accepts a www domain. -/
theorem c7_is_url_iff (text : String) :
    (is_url text = true ↔ re_findall text ≠ []) ∧
    is_url "plain text, no links" = false ∧
    is_url "see www.example.com" = true := by
  refine ⟨?_, by decide, by decide⟩
  by_cases h : re_findall text = []
  · simp [is_url, h]
  · simp [is_url, h, List.isEmpty_iff]

/-- C8: the estimator and is_url are total pure functions of their
input — a result always exists, repeated application gives the same
result — and when the grammar finds no match the status length is
returned unchanged. -/
theorem c8_estimator_total (s : String) (k : Int) :
    (∃ r : Int, calc_expected_status_length s k = r) ∧
    calc_expected_status_length s k = calc_expected_status_length s k ∧
    (∃ b : Bool, is_url s = b) ∧
    (re_findall s = [] → calc_expected_status_length s k = (s.length : Int)) :=
  ⟨⟨_, rfl⟩, rfl, ⟨_, rfl⟩, fun h => by simp [calc_expected_status_length, h]⟩

/-- Witness for C8 at a matchless status. -/
theorem c8_estimator_total_witness :
    calc_expected_status_length "abc def" 23 = (("abc def".length : Nat) : Int) :=
  (c8_estimator_total "abc def" 23).2.2.2 (by decide)

/-- C9: for the status t.co — a URL match of literal length 4, shorter
than short_url_length 23 — the estimate 23 strictly exceeds the literal
character count. -/
theorem c9_estimate_exceeds_literal :
    re_findall "t.co" = ["t.co"] ∧
    "t.co".length < 23 ∧
    ("t.co".length : Int) < calc_expected_status_length "t.co" 23 := by
  exact ⟨by decide, by decide, by decide⟩
